import Mathlib

/-
  Verification development for the statiq static file server
  (package statiq, two near-duplicate source variants of statiq.go).

  The embedding models the handler code over an abstract filesystem:
  an open call returns either a file handle or an error kind, matching
  the distinctions the Go code draws with os.IsNotExist.  Go byte strings
  are modelled by Lean String; machine integers (sizes, times) by Int.
  Response-writer semantics follow net/http: the first WriteHeader commits
  the status code and a snapshot of the header map, later WriteHeader
  calls are ignored, and body writes always append.
-/

namespace Statiq

/-- Error kinds a filesystem operation can fail with, as far as the program
distinguishes them: the code only ever tests a failure with os.IsNotExist
(here: notExist); permission errors and all remaining failures are
distinguished in the model so that claims about them can be stated. -/
inductive ErrKind where
  | notExist
  | permission
  | other
deriving DecidableEq, Repr

/-- The fields of a Go fs.FileInfo that the program reads. -/
structure FileInfo where
  name : String
  size : Int
  mode : Nat
  modTime : Int
  isDir : Bool
deriving DecidableEq, Repr

/-- An opened file handle: the result of a later Stat call, the byte
content (Go strings are byte strings, so String stands for the bytes),
and the result of Readdir. -/
structure File where
  statRes : Except ErrKind FileInfo
  content : String
  readdirRes : Except ErrKind (List FileInfo)
deriving Repr

/-- An abstract filesystem: what Open returns at each path. -/
structure FileSystem where
  openF : String → Except ErrKind File

/-- The parts of an HTTP request the handler reads: URL path and raw query. -/
structure Request where
  urlPath : String
  rawQuery : String
deriving DecidableEq, Repr

/-- Model of net/http ResponseWriter state: the mutable header map, the
committed status (none until the first WriteHeader), the snapshot of the
header map taken when the status was committed (these are the headers the
client actually receives), and the body bytes written so far. -/
structure ResponseWriter where
  headerMap : List (String × String)
  status : Option Nat
  sentHeaders : List (String × String)
  body : String
deriving DecidableEq, Repr

/-- The fresh response writer a request starts with. -/
def ResponseWriter.empty : ResponseWriter :=
  { headerMap := [], status := none, sentHeaders := [], body := "" }

/-- Look a key up in a header map or string map (first binding wins). -/
def lookupAssoc (m : List (String × String)) (k : String) : Option String :=
  (m.find? (fun p => p.1 == k)).map (fun p => p.2)

/-- Model of Header().Set: replace any binding for the key. -/
def ResponseWriter.setHeader (w : ResponseWriter) (k v : String) : ResponseWriter :=
  { w with headerMap := (k, v) :: w.headerMap.filter (fun p => p.1 != k) }

/-- Model of WriteHeader: the first call commits the status and snapshots
the header map; any later call is superfluous and ignored. -/
def ResponseWriter.writeHeader (w : ResponseWriter) (code : Nat) : ResponseWriter :=
  match w.status with
  | some _ => w
  | none => { w with status := some code, sentHeaders := w.headerMap }

/-- Model of Write: an implicit WriteHeader 200 if none was committed yet,
then append to the body. -/
def ResponseWriter.write (w : ResponseWriter) (s : String) : ResponseWriter :=
  let w := w.writeHeader 200
  { w with body := w.body ++ s }

/-- Model of http.Error: set the plain-text headers, commit the status code,
write the message followed by a newline. -/
def httpError (w : ResponseWriter) (msg : String) (code : Nat) : ResponseWriter :=
  let w := w.setHeader "Content-Type" "text/plain; charset=utf-8"
  let w := w.setHeader "X-Content-Type-Options" "nosniff"
  let w := w.writeHeader code
  w.write (msg ++ "\n")

/-- Model of http.NotFound. -/
def httpNotFound (w : ResponseWriter) : ResponseWriter :=
  httpError w "404 page not found" 404

/-- Model of Go t.UTC().Format(http.TimeFormat): an abstract rendering of
the modification timestamp.  The exact RFC 1123 text is produced by the
Go standard library; only its dependence on the timestamp matters here. -/
def httpTimeFormat (t : Int) : String := "HTTP-date:" ++ toString t

/-- Model of the template format "2006-01-02 15:04:05" applied to a
modification time, likewise abstract. -/
def fmtModTime (t : Int) : String := "datetime:" ++ toString t

/-- Model of Go filepath.Ext: the suffix starting at the final dot in the
final slash-separated element, empty when there is no such dot. -/
def filepathExt (name : String) : String :=
  let rev := name.toList.reverse
  let pre := rev.takeWhile (fun c => c != '.' && c != '/')
  match rev.drop pre.length with
  | '.' :: _ => String.mk ('.' :: pre.reverse)
  | _ => ""

/-- Whether the last character of a string is a slash.  This models the Go
byte test url[len(url)-1] == '/' (after a length guard): on valid UTF-8 the
final byte is a slash exactly when the final character is. -/
def lastIsSlash (s : String) : Bool :=
  match s.toList.getLast? with
  | some c => c == '/'
  | none => false

/-- Model of Go path.Join / filepath.Join for the arguments this program
produces (an already-clean directory path and a relative file name without
dot segments): join with exactly one slash.  The dot-segment and
double-slash normalization of path.Clean is outside the model's domain. -/
def goPathJoin (a b : String) : String :=
  if a = "" then b
  else if b = "" then a
  else if lastIsSlash a then a ++ b
  else a ++ "/" ++ b

/-- ServeHTTP's normalization of the request path: ensure a leading slash
(the Go test strings.HasPrefix(upath, "/"): the first character is a
slash). -/
def normPath (p : String) : String :=
  if p.toList.head? = some '/' then p else "/" ++ p

/-- External collaborators of the handler at request time: the process
filesystem reached by os.Open (distinct from the handler's root filesystem
view) and the process MIME registry (mime.TypeByExtension; empty string
means unknown). -/
structure World where
  osFS : FileSystem
  mime : String → String

/-- First header step of http.ServeContent: set Last-Modified when the
modification time is nonzero. -/
def lmHeader (w : ResponseWriter) (t : Int) : ResponseWriter :=
  if t != 0 then w.setHeader "Last-Modified" (httpTimeFormat t) else w

/-- Second header step of http.ServeContent: when no Content-Type is
present, set one from the name's extension (content sniffing for an
unknown extension is collapsed to its fallback value). -/
def ctHeader (wd : World) (w : ResponseWriter) (name : String) :
    ResponseWriter :=
  if (lookupAssoc w.headerMap "Content-Type").isNone then
    w.setHeader "Content-Type"
      (if wd.mime (filepathExt name) = "" then "application/octet-stream"
       else wd.mime (filepathExt name))
  else w

/-- Model of http.ServeContent for a request carrying no conditional or
range headers: the two header steps, then commit status 200 and write the
content. -/
def serveContent (wd : World) (w : ResponseWriter) (name : String)
    (modTime : Int) (content : String) : ResponseWriter :=
  (((ctHeader wd (lmHeader w modTime) name).writeHeader 200)).write content

/-- The plugin configuration, as in both source variants. -/
structure Config where
  root : String
  enableDirectoryListing : Bool
  indexFiles : List String
  spaMode : Bool
  spaIndex : String
  errorPage404 : String
  cacheControl : List (String × String)
deriving Repr

/-- CreateConfig, the default configuration. -/
def CreateConfig : Config :=
  { root := "."
    enableDirectoryListing := false
    indexFiles := ["index.html", "index.htm"]
    spaMode := false
    spaIndex := "index.html"
    errorPage404 := ""
    cacheControl := [] }

/-- The handler record, identical in both source variants (the first holds
an http.FileSystem, the second an http.Dir; both denote a filesystem view
rooted at rootPath, modelled by the root field). -/
structure StatiqHandler where
  root : FileSystem
  rootPath : String
  enableDirListing : Bool
  indexFiles : List String
  spaMode : Bool
  spaIndex : String
  errorPage404 : String
  cacheControl : List (String × String)
  notFoundResponseCode : Nat

/-- Model of New (first source variant).  filepath.Abs, os.Stat and
os.MkdirAll are construction-time OS interactions: the absolutized root is
taken as input root, statF gives the construction-time os.Stat results,
mkdirOk says whether creating a missing root succeeds, and rootFS is the
filesystem view that http.Dir root denotes at request time. -/
def New (statF : String → Except ErrKind FileInfo) (mkdirOk : Bool)
    (rootFS : FileSystem) (root : String) (config : Config) :
    Except String StatiqHandler :=
  if (match statF root with | .error .notExist => true | _ => false) && !mkdirOk then
    .error ("failed to create root directory " ++ root)
  else
    let check : Except String Nat :=
      if config.errorPage404 ≠ "" then
        match statF (goPathJoin root config.errorPage404) with
        | .error .notExist =>
            .error ("error page not found: " ++ goPathJoin root config.errorPage404)
        | _ => .ok 200
      else .ok 404
    match check with
    | .error e => .error e
    | .ok code =>
        .ok { root := rootFS
              rootPath := root
              enableDirListing := config.enableDirectoryListing
              indexFiles := config.indexFiles
              spaMode := config.spaMode
              spaIndex := config.spaIndex
              errorPage404 := config.errorPage404
              cacheControl := config.cacheControl
              notFoundResponseCode := code }

/-- setCacheHeaders, identical in both source variants: Cache-Control by
exact extension, else wildcard, else the hardcoded default; then
Last-Modified from the modification time. -/
def StatiqHandler.setCacheHeaders (h : StatiqHandler) (w : ResponseWriter)
    (d : FileInfo) : ResponseWriter :=
  let ext := filepathExt d.name
  let w :=
    match lookupAssoc h.cacheControl ext with
    | some maxAge => w.setHeader "Cache-Control" maxAge
    | none =>
      match lookupAssoc h.cacheControl "*" with
      | some maxAge => w.setHeader "Cache-Control" maxAge
      | none => w.setHeader "Cache-Control" "max-age=86400"
  w.setHeader "Last-Modified" (httpTimeFormat d.modTime)

/-- localRedirect, identical in both source variants: append the raw query
when present, set Location, commit 301. -/
def localRedirect (w : ResponseWriter) (r : Request) (newPath : String) :
    ResponseWriter :=
  let newPath := if r.rawQuery ≠ "" then newPath ++ "?" ++ r.rawQuery else newPath
  let w := w.setHeader "Location" newPath
  w.writeHeader 301

/-- serveFile of the first source variant: os.Open the path, 500 on any
open or stat failure, else cache headers, Content-Type by extension when
known, then ServeContent. -/
def StatiqHandler.serveFileV1 (h : StatiqHandler) (wd : World)
    (w : ResponseWriter) (filePath : String) : ResponseWriter :=
  match wd.osFS.openF filePath with
  | .error _ => httpError w "Internal Server Error" 500
  | .ok f =>
    match f.statRes with
    | .error _ => httpError w "Internal Server Error" 500
    | .ok d =>
      let w := h.setCacheHeaders w d
      let ct := wd.mime (filepathExt d.name)
      let w := if ct ≠ "" then w.setHeader "Content-Type" ct else w
      serveContent wd w d.name d.modTime f.content

/-- serveFile of the second source variant: as the first but without the
explicit Content-Type setting. -/
def StatiqHandler.serveFileV2 (h : StatiqHandler) (wd : World)
    (w : ResponseWriter) (filePath : String) : ResponseWriter :=
  match wd.osFS.openF filePath with
  | .error _ => httpError w "Internal Server Error" 500
  | .ok f =>
    match f.statRes with
    | .error _ => httpError w "Internal Server Error" 500
    | .ok d =>
      let w := h.setCacheHeaders w d
      serveContent wd w d.name d.modTime f.content

/-- The index-file probe loop of ServeHTTP: the first configured name whose
joined path opens successfully yields the redirect target. -/
def probeIndex (fs : FileSystem) (upath : String) : List String → Option String
  | [] => none
  | index :: rest =>
    let indexPath := goPathJoin upath index
    match fs.openF indexPath with
    | .ok _ => some indexPath
    | .error _ => probeIndex fs upath rest

/-- The sort.Slice comparison of serveDirectoryListing: directories strictly
before files, otherwise by name. -/
def lessFn (a b : FileInfo) : Bool :=
  if a.isDir && !b.isDir then true
  else if !a.isDir && b.isDir then false
  else decide (a.name < b.name)

/-- Model of sort.Slice dirs lessFn.  sort.Slice promises only that the
result is ordered by the comparison (it is not stable); any correct sort,
here a merge sort on the negated flipped comparison, realizes that. -/
def sortEntries (dirs : List FileInfo) : List FileInfo :=
  dirs.mergeSort (fun a b => !(lessFn b a))

/-- The dirEntry record the first source variant hands to its template. -/
structure dirEntry where
  Name : String
  Size : Int
  Mode : Nat
  ModTime : Int
  IsDir : Bool
deriving DecidableEq, Repr

/-- Model of html/template escaping of interpolated data: the five
standard entities; context-specific URL escaping inside the href attribute
is elided. -/
def htmlEscapeChar (c : Char) : String :=
  if c = '<' then "&lt;"
  else if c = '>' then "&gt;"
  else if c = '&' then "&amp;"
  else if c = '\"' then "&#34;"
  else if c = '\'' then "&#39;"
  else String.mk [c]

/-- Escape a whole interpolated string. -/
def htmlEscape (s : String) : String :=
  String.join (s.toList.map htmlEscapeChar)

/-- The fixed style block of the directory-listing template. -/
def dirlistStyle : String :=
  "<style>\n" ++
  "body \x7b font-family: sans-serif; margin: 2em; \x7d\n" ++
  "table \x7b border-collapse: collapse; width: 100%; \x7d\n" ++
  "th, td \x7b text-align: left; padding: 8px; \x7d\n" ++
  "tr:nth-child(even) \x7b background-color: #f2f2f2; \x7d\n" ++
  "th \x7b background-color: #4CAF50; color: white; \x7d\n" ++
  "a \x7b text-decoration: none; \x7d\n" ++
  "a:hover \x7b text-decoration: underline; \x7d\n" ++
  "</style>\n"

/-- Everything the template renders before the optional parent row. -/
def dirlistHead (p : String) : String :=
  "<!DOCTYPE html>\n<html>\n<head>\n<meta charset=\"utf-8\">\n<title>Index of " ++
  htmlEscape p ++ "</title>\n" ++ dirlistStyle ++
  "</head>\n<body>\n<h1>Index of " ++ htmlEscape p ++ "</h1>\n<table>\n" ++
  "<tr>\n<th>Name</th>\n<th>Size</th>\n<th>Modified</th>\n</tr>\n"

/-- The parent-directory row the template emits when the path is not the
root. -/
def dirlistParentRow : String :=
  "<tr>\n<td><a href=\"../\">../</a></td>\n<td>-</td>\n<td>-</td>\n</tr>\n"

/-- One table row for a listed entry. -/
def dirlistRow (e : dirEntry) : String :=
  let slash := if e.IsDir then "/" else ""
  "<tr>\n<td><a href=\"" ++ htmlEscape e.Name ++ slash ++ "\">" ++
  htmlEscape e.Name ++ slash ++ "</a></td>\n<td>" ++
  (if e.IsDir then "-" else toString e.Size ++ " bytes") ++
  "</td>\n<td>" ++ fmtModTime e.ModTime ++ "</td>\n</tr>\n"

/-- Everything the template renders after the rows. -/
def dirlistFoot : String := "</table>\n</body>\n</html>\n"

/-- The rendered directory-listing document: head, the parent row exactly
when the path is not the root (the template's if ne .Path test), one row
per entry, footer. -/
def dirlistHTML (p : String) (files : List dirEntry) : String :=
  dirlistHead p ++ (if p = "/" then "" else dirlistParentRow) ++
  String.join (files.map dirlistRow) ++ dirlistFoot

/-- serveDirectoryListing of the first source variant: Readdir, 500 on
failure, sort, build the dirEntry slice, set Content-Type, execute the
template (template execution on this data cannot fail, so the final error
branch of the source is unreachable in the model). -/
def StatiqHandler.serveDirectoryListing (h : StatiqHandler)
    (w : ResponseWriter) (r : Request) (f : File) : ResponseWriter :=
  match f.readdirRes with
  | .error _ => httpError w "Error reading directory" 500
  | .ok dirs =>
    let sorted := sortEntries dirs
    let entries : List dirEntry :=
      sorted.map (fun e => { Name := e.name, Size := e.size, Mode := e.mode,
                             ModTime := e.modTime, IsDir := e.isDir })
    let w := w.setHeader "Content-Type" "text/html; charset=utf-8"
    w.write (dirlistHTML r.urlPath entries)

/-- ServeHTTP of the first source variant. -/
def StatiqHandler.serveHTTPV1 (h : StatiqHandler) (wd : World)
    (w : ResponseWriter) (r : Request) : ResponseWriter :=
  let upath := normPath r.urlPath
  match h.root.openF upath with
  | .error .notExist =>
    if h.spaMode then
      h.serveFileV1 wd w (goPathJoin h.rootPath h.spaIndex)
    else if h.errorPage404 ≠ "" then
      let w := w.writeHeader h.notFoundResponseCode
      h.serveFileV1 wd w (goPathJoin h.rootPath h.errorPage404)
    else
      httpNotFound w
  | .error _ => httpError w "Forbidden" 403
  | .ok f =>
    match f.statRes with
    | .error _ => httpError w "Internal Server Error" 500
    | .ok d =>
      if d.isDir then
        let url := r.urlPath
        if url.length == 0 || !(lastIsSlash url) then
          localRedirect w r (url ++ "/")
        else
          match probeIndex h.root upath h.indexFiles with
          | some indexPath => localRedirect w r indexPath
          | none =>
            if !h.enableDirListing then
              if h.errorPage404 ≠ "" then
                let w := w.writeHeader h.notFoundResponseCode
                h.serveFileV1 wd w (goPathJoin h.rootPath h.errorPage404)
              else httpNotFound w
            else
              h.serveDirectoryListing w r f
      else
        let w := h.setCacheHeaders w d
        let ct := wd.mime (filepathExt d.name)
        let w := if ct ≠ "" then w.setHeader "Content-Type" ct else w
        serveContent wd w d.name d.modTime f.content

/-- ServeHTTP of the second source variant.  It differs in three ways:
its trailing-slash test url[len(url)-1] != '/' has no length guard, so an
empty original path reaching the directory branch panics with an index out
of range (modelled by Except.error ()); its serveFile does not set
Content-Type; a directory listing is a bare ServeContent on the directory
handle. -/
def StatiqHandler.serveHTTPV2 (h : StatiqHandler) (wd : World)
    (w : ResponseWriter) (r : Request) : Except Unit ResponseWriter :=
  let upath := normPath r.urlPath
  match h.root.openF upath with
  | .error .notExist =>
    if h.spaMode then
      .ok (h.serveFileV2 wd w (goPathJoin h.rootPath h.spaIndex))
    else if h.errorPage404 ≠ "" then
      let w := w.writeHeader h.notFoundResponseCode
      .ok (h.serveFileV2 wd w (goPathJoin h.rootPath h.errorPage404))
    else
      .ok (httpNotFound w)
  | .error _ => .ok (httpError w "Forbidden" 403)
  | .ok f =>
    match f.statRes with
    | .error _ => .ok (httpError w "Internal Server Error" 500)
    | .ok d =>
      if d.isDir then
        let url := r.urlPath
        if url.length == 0 then
          .error ()
        else if !(lastIsSlash url) then
          .ok (localRedirect w r (url ++ "/"))
        else
          match probeIndex h.root upath h.indexFiles with
          | some indexPath => .ok (localRedirect w r indexPath)
          | none =>
            if !h.enableDirListing then
              if h.errorPage404 ≠ "" then
                let w := w.writeHeader h.notFoundResponseCode
                .ok (h.serveFileV2 wd w (goPathJoin h.rootPath h.errorPage404))
              else .ok (httpNotFound w)
            else
              .ok (serveContent wd w d.name d.modTime f.content)
      else
        let w := h.setCacheHeaders w d
        .ok (serveContent wd w d.name d.modTime f.content)

/-
  Helper lemmas about the response-writer model.
-/

theorem setHeader_status (w : ResponseWriter) (k v : String) :
    (w.setHeader k v).status = w.status := rfl

theorem setHeader_body (w : ResponseWriter) (k v : String) :
    (w.setHeader k v).body = w.body := rfl

theorem setHeader_sentHeaders (w : ResponseWriter) (k v : String) :
    (w.setHeader k v).sentHeaders = w.sentHeaders := rfl

theorem writeHeader_status_of_none (w : ResponseWriter) (code : Nat)
    (hw : w.status = none) : (w.writeHeader code).status = some code := by
  simp [ResponseWriter.writeHeader, hw]

theorem writeHeader_status_of_some (w : ResponseWriter) (code c : Nat)
    (hw : w.status = some c) : (w.writeHeader code).status = some c := by
  simp [ResponseWriter.writeHeader, hw]

theorem writeHeader_body (w : ResponseWriter) (code : Nat) :
    (w.writeHeader code).body = w.body := by
  unfold ResponseWriter.writeHeader
  cases w.status <;> rfl

theorem writeHeader_headerMap (w : ResponseWriter) (code : Nat) :
    (w.writeHeader code).headerMap = w.headerMap := by
  unfold ResponseWriter.writeHeader
  cases w.status <;> rfl

theorem writeHeader_sentHeaders_of_none (w : ResponseWriter) (code : Nat)
    (hw : w.status = none) : (w.writeHeader code).sentHeaders = w.headerMap := by
  simp [ResponseWriter.writeHeader, hw]

theorem write_body (w : ResponseWriter) (s : String) :
    (w.write s).body = w.body ++ s := by
  simp [ResponseWriter.write, writeHeader_body]

theorem write_status_of_none (w : ResponseWriter) (s : String)
    (hw : w.status = none) : (w.write s).status = some 200 := by
  simp [ResponseWriter.write, writeHeader_status_of_none w 200 hw]

theorem write_status_of_some (w : ResponseWriter) (s : String) (c : Nat)
    (hw : w.status = some c) : (w.write s).status = some c := by
  simp [ResponseWriter.write, writeHeader_status_of_some w 200 c hw]

theorem write_sentHeaders_of_none (w : ResponseWriter) (s : String)
    (hw : w.status = none) : (w.write s).sentHeaders = w.headerMap := by
  simp [ResponseWriter.write, writeHeader_sentHeaders_of_none w 200 hw]

theorem write_sentHeaders_of_some (w : ResponseWriter) (s : String) (c : Nat)
    (hw : w.status = some c) : (w.write s).sentHeaders = w.sentHeaders := by
  simp [ResponseWriter.write, ResponseWriter.writeHeader, hw]

theorem lookupAssoc_setHeader_self (w : ResponseWriter) (k v : String) :
    lookupAssoc (w.setHeader k v).headerMap k = some v := by
  simp [lookupAssoc, ResponseWriter.setHeader, List.find?]

theorem lookupAssoc_filter_ne (l : List (String × String)) (k k' : String)
    (hne : k' ≠ k) :
    (l.filter (fun p => p.1 != k)).find? (fun p => p.1 == k') =
      l.find? (fun p => p.1 == k') := by
  induction l with
  | nil => rfl
  | cons a t ih =>
    cases hak : (a.1 == k) with
    | false =>
      have h1 : (a.1 != k) = true := by simp [bne, hak]
      cases hk : (a.1 == k') with
      | false => simp [List.filter_cons, h1, List.find?, hk, ih]
      | true => simp [List.filter_cons, h1, List.find?, hk]
    | true =>
      have h1 : (a.1 != k) = false := by simp [bne, hak]
      have hk : (a.1 == k') = false := by
        have hak' : a.1 = k := by simpa [beq_iff_eq] using hak
        simp only [beq_eq_false_iff_ne, ne_eq, hak']
        exact fun h => hne h.symm
      simp [List.filter_cons, h1, List.find?, hk, ih]

theorem lookupAssoc_setHeader_ne (w : ResponseWriter) (k v k' : String)
    (hne : k' ≠ k) :
    lookupAssoc (w.setHeader k v).headerMap k' = lookupAssoc w.headerMap k' := by
  have : (k == k') = false := by
    simp [beq_iff_eq]
    exact fun h => hne h.symm
  simp [lookupAssoc, ResponseWriter.setHeader, List.find?, this,
    lookupAssoc_filter_ne w.headerMap k k' hne]

/-- The Cache-Control value the source's precedence chain chooses for an
extension: the exact entry, else the wildcard entry, else the default. -/
def cacheControlValue (m : List (String × String)) (ext : String) : String :=
  match lookupAssoc m ext with
  | some v => v
  | none =>
    match lookupAssoc m "*" with
    | some v => v
    | none => "max-age=86400"

theorem setCacheHeaders_eq (h : StatiqHandler) (w : ResponseWriter)
    (d : FileInfo) :
    h.setCacheHeaders w d =
      (w.setHeader "Cache-Control"
        (cacheControlValue h.cacheControl (filepathExt d.name))).setHeader
        "Last-Modified" (httpTimeFormat d.modTime) := by
  unfold StatiqHandler.setCacheHeaders cacheControlValue
  cases h1 : lookupAssoc h.cacheControl (filepathExt d.name) with
  | some v => simp [h1]
  | none =>
    cases h2 : lookupAssoc h.cacheControl "*" with
    | some v => simp [h1, h2]
    | none => simp [h1, h2]

theorem setCacheHeaders_status (h : StatiqHandler) (w : ResponseWriter)
    (d : FileInfo) : (h.setCacheHeaders w d).status = w.status := by
  rw [setCacheHeaders_eq]; rfl

theorem setCacheHeaders_body (h : StatiqHandler) (w : ResponseWriter)
    (d : FileInfo) : (h.setCacheHeaders w d).body = w.body := by
  rw [setCacheHeaders_eq]; rfl

theorem setCacheHeaders_sentHeaders (h : StatiqHandler) (w : ResponseWriter)
    (d : FileInfo) : (h.setCacheHeaders w d).sentHeaders = w.sentHeaders := by
  rw [setCacheHeaders_eq]; rfl

theorem lmHeader_status (w : ResponseWriter) (t : Int) :
    (lmHeader w t).status = w.status := by
  unfold lmHeader; split <;> rfl

theorem lmHeader_body (w : ResponseWriter) (t : Int) :
    (lmHeader w t).body = w.body := by
  unfold lmHeader; split <;> rfl

theorem lmHeader_sentHeaders (w : ResponseWriter) (t : Int) :
    (lmHeader w t).sentHeaders = w.sentHeaders := by
  unfold lmHeader; split <;> rfl

theorem lmHeader_lookup_ne (w : ResponseWriter) (t : Int) (k : String)
    (hk : k ≠ "Last-Modified") :
    lookupAssoc (lmHeader w t).headerMap k = lookupAssoc w.headerMap k := by
  unfold lmHeader
  split
  · exact lookupAssoc_setHeader_ne _ _ _ _ hk
  · rfl

theorem lmHeader_lookup_self (w : ResponseWriter) (t : Int)
    (hlm : lookupAssoc w.headerMap "Last-Modified" = some (httpTimeFormat t)) :
    lookupAssoc (lmHeader w t).headerMap "Last-Modified" =
      some (httpTimeFormat t) := by
  unfold lmHeader
  split
  · exact lookupAssoc_setHeader_self _ _ _
  · exact hlm

theorem ctHeader_status (wd : World) (w : ResponseWriter) (name : String) :
    (ctHeader wd w name).status = w.status := by
  unfold ctHeader; split <;> rfl

theorem ctHeader_body (wd : World) (w : ResponseWriter) (name : String) :
    (ctHeader wd w name).body = w.body := by
  unfold ctHeader; split <;> rfl

theorem ctHeader_sentHeaders (wd : World) (w : ResponseWriter) (name : String) :
    (ctHeader wd w name).sentHeaders = w.sentHeaders := by
  unfold ctHeader; split <;> rfl

theorem ctHeader_lookup_ne (wd : World) (w : ResponseWriter) (name : String)
    (k : String) (hk : k ≠ "Content-Type") :
    lookupAssoc (ctHeader wd w name).headerMap k = lookupAssoc w.headerMap k := by
  unfold ctHeader
  split
  · exact lookupAssoc_setHeader_ne _ _ _ _ hk
  · rfl

theorem serveContent_body (wd : World) (w : ResponseWriter) (name : String)
    (t : Int) (c : String) : (serveContent wd w name t c).body = w.body ++ c := by
  unfold serveContent
  rw [write_body, writeHeader_body, ctHeader_body, lmHeader_body]

theorem serveContent_status_of_none (wd : World) (w : ResponseWriter)
    (name : String) (t : Int) (c : String) (hw : w.status = none) :
    (serveContent wd w name t c).status = some 200 := by
  unfold serveContent
  exact write_status_of_some _ _ 200 (writeHeader_status_of_none _ _
    (by rw [ctHeader_status, lmHeader_status, hw]))

theorem serveContent_status_of_some (wd : World) (w : ResponseWriter)
    (name : String) (t : Int) (c : String) (k : Nat) (hw : w.status = some k) :
    (serveContent wd w name t c).status = some k := by
  unfold serveContent
  exact write_status_of_some _ _ k (writeHeader_status_of_some _ _ k
    (by rw [ctHeader_status, lmHeader_status, hw]))

theorem httpError_body (w : ResponseWriter) (msg : String) (code : Nat) :
    (httpError w msg code).body = w.body ++ (msg ++ "\n") := by
  simp [httpError, write_body, writeHeader_body, setHeader_body]

theorem httpError_status_of_none (w : ResponseWriter) (msg : String)
    (code : Nat) (hw : w.status = none) :
    (httpError w msg code).status = some code := by
  unfold httpError
  exact write_status_of_some _ _ code
    (writeHeader_status_of_none _ _ (by simp [setHeader_status, hw]))

theorem httpError_status_of_some (w : ResponseWriter) (msg : String)
    (code c : Nat) (hw : w.status = some c) :
    (httpError w msg code).status = some c := by
  unfold httpError
  exact write_status_of_some _ _ c
    (writeHeader_status_of_some _ _ c (by simp [setHeader_status, hw]))

theorem serveFileV1_open_err (h : StatiqHandler) (wd : World)
    (w : ResponseWriter) (p : String) (e : ErrKind)
    (hopen : wd.osFS.openF p = .error e) :
    h.serveFileV1 wd w p = httpError w "Internal Server Error" 500 := by
  unfold StatiqHandler.serveFileV1
  simp [hopen]

theorem serveFileV1_stat_err (h : StatiqHandler) (wd : World)
    (w : ResponseWriter) (p : String) (f : File) (e : ErrKind)
    (hopen : wd.osFS.openF p = .ok f) (hstat : f.statRes = .error e) :
    h.serveFileV1 wd w p = httpError w "Internal Server Error" 500 := by
  unfold StatiqHandler.serveFileV1
  simp [hopen, hstat]

/-- Shape of a successful serveFileV1: header updates preserving status,
body and sent headers, then serveContent on the opened file. -/
theorem serveFileV1_ok (h : StatiqHandler) (wd : World) (w : ResponseWriter)
    (p : String) (f : File) (d : FileInfo)
    (hopen : wd.osFS.openF p = .ok f) (hstat : f.statRes = .ok d) :
    ∃ w' : ResponseWriter,
      h.serveFileV1 wd w p = serveContent wd w' d.name d.modTime f.content ∧
      w'.status = w.status ∧ w'.body = w.body ∧
      w'.sentHeaders = w.sentHeaders := by
  unfold StatiqHandler.serveFileV1
  simp only [hopen, hstat]
  refine ⟨_, rfl, ?_, ?_, ?_⟩ <;>
    split <;>
    simp [setHeader_status, setHeader_body, setHeader_sentHeaders,
      setCacheHeaders_status, setCacheHeaders_body, setCacheHeaders_sentHeaders]

theorem serveFileV1_ok_body (h : StatiqHandler) (wd : World)
    (w : ResponseWriter) (p : String) (f : File) (d : FileInfo)
    (hopen : wd.osFS.openF p = .ok f) (hstat : f.statRes = .ok d) :
    (h.serveFileV1 wd w p).body = w.body ++ f.content := by
  obtain ⟨w', heq, _, hb, _⟩ := serveFileV1_ok h wd w p f d hopen hstat
  rw [heq, serveContent_body, hb]

theorem serveFileV1_ok_status_of_none (h : StatiqHandler) (wd : World)
    (w : ResponseWriter) (p : String) (f : File) (d : FileInfo)
    (hopen : wd.osFS.openF p = .ok f) (hstat : f.statRes = .ok d)
    (hw : w.status = none) :
    (h.serveFileV1 wd w p).status = some 200 := by
  obtain ⟨w', heq, hs, _, _⟩ := serveFileV1_ok h wd w p f d hopen hstat
  rw [heq]
  exact serveContent_status_of_none _ _ _ _ _ (hs.trans hw)

theorem serveFileV1_ok_status_of_some (h : StatiqHandler) (wd : World)
    (w : ResponseWriter) (p : String) (f : File) (d : FileInfo) (k : Nat)
    (hopen : wd.osFS.openF p = .ok f) (hstat : f.statRes = .ok d)
    (hw : w.status = some k) :
    (h.serveFileV1 wd w p).status = some k := by
  obtain ⟨w', heq, hs, _, _⟩ := serveFileV1_ok h wd w p f d hopen hstat
  rw [heq]
  exact serveContent_status_of_some _ _ _ _ _ k (hs.trans hw)

theorem serveFileV2_open_err (h : StatiqHandler) (wd : World)
    (w : ResponseWriter) (p : String) (e : ErrKind)
    (hopen : wd.osFS.openF p = .error e) :
    h.serveFileV2 wd w p = httpError w "Internal Server Error" 500 := by
  unfold StatiqHandler.serveFileV2
  simp [hopen]

theorem serveFileV2_stat_err (h : StatiqHandler) (wd : World)
    (w : ResponseWriter) (p : String) (f : File) (e : ErrKind)
    (hopen : wd.osFS.openF p = .ok f) (hstat : f.statRes = .error e) :
    h.serveFileV2 wd w p = httpError w "Internal Server Error" 500 := by
  unfold StatiqHandler.serveFileV2
  simp [hopen, hstat]

theorem serveFileV2_ok (h : StatiqHandler) (wd : World) (w : ResponseWriter)
    (p : String) (f : File) (d : FileInfo)
    (hopen : wd.osFS.openF p = .ok f) (hstat : f.statRes = .ok d) :
    ∃ w' : ResponseWriter,
      h.serveFileV2 wd w p = serveContent wd w' d.name d.modTime f.content ∧
      w'.status = w.status ∧ w'.body = w.body ∧
      w'.sentHeaders = w.sentHeaders := by
  unfold StatiqHandler.serveFileV2
  simp only [hopen, hstat]
  exact ⟨_, rfl, setCacheHeaders_status h w d, setCacheHeaders_body h w d,
    setCacheHeaders_sentHeaders h w d⟩

/-
  Branch-reduction lemmas for the two ServeHTTP variants.
-/

theorem v1_notExist_spa (h : StatiqHandler) (wd : World) (w : ResponseWriter)
    (r : Request)
    (hopen : h.root.openF (normPath r.urlPath) = .error .notExist)
    (hspa : h.spaMode = true) :
    h.serveHTTPV1 wd w r =
      h.serveFileV1 wd w (goPathJoin h.rootPath h.spaIndex) := by
  unfold StatiqHandler.serveHTTPV1
  simp [hopen, hspa]

theorem v1_notExist_page (h : StatiqHandler) (wd : World) (w : ResponseWriter)
    (r : Request)
    (hopen : h.root.openF (normPath r.urlPath) = .error .notExist)
    (hspa : h.spaMode = false) (hpage : h.errorPage404 ≠ "") :
    h.serveHTTPV1 wd w r =
      h.serveFileV1 wd (w.writeHeader h.notFoundResponseCode)
        (goPathJoin h.rootPath h.errorPage404) := by
  unfold StatiqHandler.serveHTTPV1
  simp [hopen, hspa, hpage]

theorem v1_notExist_plain (h : StatiqHandler) (wd : World) (w : ResponseWriter)
    (r : Request)
    (hopen : h.root.openF (normPath r.urlPath) = .error .notExist)
    (hspa : h.spaMode = false) (hpage : h.errorPage404 = "") :
    h.serveHTTPV1 wd w r = httpNotFound w := by
  unfold StatiqHandler.serveHTTPV1
  simp [hopen, hspa, hpage]

theorem v1_open_err (h : StatiqHandler) (wd : World) (w : ResponseWriter)
    (r : Request) (e : ErrKind)
    (hopen : h.root.openF (normPath r.urlPath) = .error e)
    (he : e ≠ .notExist) :
    h.serveHTTPV1 wd w r = httpError w "Forbidden" 403 := by
  unfold StatiqHandler.serveHTTPV1
  cases e with
  | notExist => exact absurd rfl he
  | permission => simp [hopen]
  | other => simp [hopen]

theorem v1_stat_err (h : StatiqHandler) (wd : World) (w : ResponseWriter)
    (r : Request) (f : File) (e : ErrKind)
    (hopen : h.root.openF (normPath r.urlPath) = .ok f)
    (hstat : f.statRes = .error e) :
    h.serveHTTPV1 wd w r = httpError w "Internal Server Error" 500 := by
  unfold StatiqHandler.serveHTTPV1
  simp [hopen, hstat]

theorem v2_notExist_spa (h : StatiqHandler) (wd : World) (w : ResponseWriter)
    (r : Request)
    (hopen : h.root.openF (normPath r.urlPath) = .error .notExist)
    (hspa : h.spaMode = true) :
    h.serveHTTPV2 wd w r =
      .ok (h.serveFileV2 wd w (goPathJoin h.rootPath h.spaIndex)) := by
  unfold StatiqHandler.serveHTTPV2
  simp [hopen, hspa]

theorem v2_notExist_page (h : StatiqHandler) (wd : World) (w : ResponseWriter)
    (r : Request)
    (hopen : h.root.openF (normPath r.urlPath) = .error .notExist)
    (hspa : h.spaMode = false) (hpage : h.errorPage404 ≠ "") :
    h.serveHTTPV2 wd w r =
      .ok (h.serveFileV2 wd (w.writeHeader h.notFoundResponseCode)
        (goPathJoin h.rootPath h.errorPage404)) := by
  unfold StatiqHandler.serveHTTPV2
  simp [hopen, hspa, hpage]

theorem v2_notExist_plain (h : StatiqHandler) (wd : World) (w : ResponseWriter)
    (r : Request)
    (hopen : h.root.openF (normPath r.urlPath) = .error .notExist)
    (hspa : h.spaMode = false) (hpage : h.errorPage404 = "") :
    h.serveHTTPV2 wd w r = .ok (httpNotFound w) := by
  unfold StatiqHandler.serveHTTPV2
  simp [hopen, hspa, hpage]

theorem v2_open_err (h : StatiqHandler) (wd : World) (w : ResponseWriter)
    (r : Request) (e : ErrKind)
    (hopen : h.root.openF (normPath r.urlPath) = .error e)
    (he : e ≠ .notExist) :
    h.serveHTTPV2 wd w r = .ok (httpError w "Forbidden" 403) := by
  unfold StatiqHandler.serveHTTPV2
  cases e with
  | notExist => exact absurd rfl he
  | permission => simp [hopen]
  | other => simp [hopen]

theorem v2_stat_err (h : StatiqHandler) (wd : World) (w : ResponseWriter)
    (r : Request) (f : File) (e : ErrKind)
    (hopen : h.root.openF (normPath r.urlPath) = .ok f)
    (hstat : f.statRes = .error e) :
    h.serveHTTPV2 wd w r = .ok (httpError w "Internal Server Error" 500) := by
  unfold StatiqHandler.serveHTTPV2
  simp [hopen, hstat]

theorem lastIsSlash_length_ne_zero (s : String) (hs : lastIsSlash s = true) :
    (s.length == 0) = false := by
  unfold lastIsSlash at hs
  cases hl : s.toList.getLast? with
  | none => rw [hl] at hs; exact absurd hs (by simp)
  | some c =>
    have hne : s.toList ≠ [] := by
      intro h
      rw [h] at hl
      exact absurd hl (by simp)
    have : s.length ≠ 0 := by
      intro h
      exact hne (List.length_eq_zero.mp h)
    simp [this]

theorem localRedirect_status_of_none (w : ResponseWriter) (r : Request)
    (np : String) (hw : w.status = none) :
    (localRedirect w r np).status = some 301 := by
  unfold localRedirect
  split <;> exact writeHeader_status_of_none _ _ (by simp [setHeader_status, hw])

theorem localRedirect_location_of_none (w : ResponseWriter) (r : Request)
    (np : String) (hw : w.status = none) :
    lookupAssoc (localRedirect w r np).sentHeaders "Location" =
      some (if r.rawQuery = "" then np else np ++ "?" ++ r.rawQuery) := by
  by_cases hq : r.rawQuery = ""
  · have h1 : ¬(r.rawQuery ≠ "") := by simp [hq]
    simp only [localRedirect, if_neg h1, if_pos hq]
    rw [writeHeader_sentHeaders_of_none _ _ (by simp [setHeader_status, hw]),
      lookupAssoc_setHeader_self]
  · simp only [localRedirect, if_pos hq, if_neg hq]
    rw [writeHeader_sentHeaders_of_none _ _ (by simp [setHeader_status, hw]),
      lookupAssoc_setHeader_self]

theorem localRedirect_body (w : ResponseWriter) (r : Request) (np : String) :
    (localRedirect w r np).body = w.body := by
  unfold localRedirect
  split <;> rw [writeHeader_body, setHeader_body]

theorem serveContent_sentHeaders_of_none (wd : World) (w : ResponseWriter)
    (name : String) (t : Int) (c : String) (hw : w.status = none) :
    (serveContent wd w name t c).sentHeaders =
      (ctHeader wd (lmHeader w t) name).headerMap := by
  unfold serveContent
  have hs : (ctHeader wd (lmHeader w t) name).status = none := by
    rw [ctHeader_status, lmHeader_status, hw]
  rw [write_sentHeaders_of_some _ _ 200
      (writeHeader_status_of_none _ _ hs),
    writeHeader_sentHeaders_of_none _ _ hs]

theorem serveContent_sent_lookup (wd : World) (w : ResponseWriter)
    (name : String) (t : Int) (c : String) (k : String)
    (hw : w.status = none) (h1 : k ≠ "Last-Modified") (h2 : k ≠ "Content-Type") :
    lookupAssoc (serveContent wd w name t c).sentHeaders k =
      lookupAssoc w.headerMap k := by
  rw [serveContent_sentHeaders_of_none wd w name t c hw,
    ctHeader_lookup_ne _ _ _ _ h2, lmHeader_lookup_ne _ _ _ h1]

theorem serveContent_sent_lastModified (wd : World) (w : ResponseWriter)
    (name : String) (t : Int) (c : String)
    (hw : w.status = none)
    (hlm : lookupAssoc w.headerMap "Last-Modified" = some (httpTimeFormat t)) :
    lookupAssoc (serveContent wd w name t c).sentHeaders "Last-Modified" =
      some (httpTimeFormat t) := by
  rw [serveContent_sentHeaders_of_none wd w name t c hw,
    ctHeader_lookup_ne _ _ _ _ (by decide),
    lmHeader_lookup_self _ _ hlm]

theorem v1_dir_noslash (h : StatiqHandler) (wd : World) (w : ResponseWriter)
    (r : Request) (f : File) (d : FileInfo)
    (hopen : h.root.openF (normPath r.urlPath) = .ok f)
    (hstat : f.statRes = .ok d) (hdir : d.isDir = true)
    (hslash : lastIsSlash r.urlPath = false) :
    h.serveHTTPV1 wd w r = localRedirect w r (r.urlPath ++ "/") := by
  unfold StatiqHandler.serveHTTPV1
  simp [hopen, hstat, hdir, hslash]

theorem v1_dir_index (h : StatiqHandler) (wd : World) (w : ResponseWriter)
    (r : Request) (f : File) (d : FileInfo) (ip : String)
    (hopen : h.root.openF (normPath r.urlPath) = .ok f)
    (hstat : f.statRes = .ok d) (hdir : d.isDir = true)
    (hslash : lastIsSlash r.urlPath = true)
    (hprobe : probeIndex h.root (normPath r.urlPath) h.indexFiles = some ip) :
    h.serveHTTPV1 wd w r = localRedirect w r ip := by
  unfold StatiqHandler.serveHTTPV1
  simp [hopen, hstat, hdir, hslash, lastIsSlash_length_ne_zero _ hslash, hprobe]

theorem v1_dir_noindex_page (h : StatiqHandler) (wd : World)
    (w : ResponseWriter) (r : Request) (f : File) (d : FileInfo)
    (hopen : h.root.openF (normPath r.urlPath) = .ok f)
    (hstat : f.statRes = .ok d) (hdir : d.isDir = true)
    (hslash : lastIsSlash r.urlPath = true)
    (hprobe : probeIndex h.root (normPath r.urlPath) h.indexFiles = none)
    (hlist : h.enableDirListing = false) (hpage : h.errorPage404 ≠ "") :
    h.serveHTTPV1 wd w r =
      h.serveFileV1 wd (w.writeHeader h.notFoundResponseCode)
        (goPathJoin h.rootPath h.errorPage404) := by
  unfold StatiqHandler.serveHTTPV1
  simp [hopen, hstat, hdir, hslash, lastIsSlash_length_ne_zero _ hslash, hprobe,
    hlist, hpage]

theorem v1_dir_noindex_plain (h : StatiqHandler) (wd : World)
    (w : ResponseWriter) (r : Request) (f : File) (d : FileInfo)
    (hopen : h.root.openF (normPath r.urlPath) = .ok f)
    (hstat : f.statRes = .ok d) (hdir : d.isDir = true)
    (hslash : lastIsSlash r.urlPath = true)
    (hprobe : probeIndex h.root (normPath r.urlPath) h.indexFiles = none)
    (hlist : h.enableDirListing = false) (hpage : h.errorPage404 = "") :
    h.serveHTTPV1 wd w r = httpNotFound w := by
  unfold StatiqHandler.serveHTTPV1
  simp [hopen, hstat, hdir, hslash, lastIsSlash_length_ne_zero _ hslash, hprobe,
    hlist, hpage]

theorem v1_dir_listing (h : StatiqHandler) (wd : World) (w : ResponseWriter)
    (r : Request) (f : File) (d : FileInfo)
    (hopen : h.root.openF (normPath r.urlPath) = .ok f)
    (hstat : f.statRes = .ok d) (hdir : d.isDir = true)
    (hslash : lastIsSlash r.urlPath = true)
    (hprobe : probeIndex h.root (normPath r.urlPath) h.indexFiles = none)
    (hlist : h.enableDirListing = true) :
    h.serveHTTPV1 wd w r = h.serveDirectoryListing w r f := by
  unfold StatiqHandler.serveHTTPV1
  simp [hopen, hstat, hdir, hslash, lastIsSlash_length_ne_zero _ hslash, hprobe,
    hlist]

theorem v1_file (h : StatiqHandler) (wd : World) (w : ResponseWriter)
    (r : Request) (f : File) (d : FileInfo)
    (hopen : h.root.openF (normPath r.urlPath) = .ok f)
    (hstat : f.statRes = .ok d) (hdir : d.isDir = false) :
    h.serveHTTPV1 wd w r =
      serveContent wd
        (if wd.mime (filepathExt d.name) ≠ "" then
          (h.setCacheHeaders w d).setHeader "Content-Type"
            (wd.mime (filepathExt d.name))
        else h.setCacheHeaders w d)
        d.name d.modTime f.content := by
  unfold StatiqHandler.serveHTTPV1
  simp [hopen, hstat, hdir]

theorem v2_dir_outOfRange (h : StatiqHandler) (wd : World) (w : ResponseWriter)
    (r : Request) (f : File) (d : FileInfo)
    (hopen : h.root.openF (normPath r.urlPath) = .ok f)
    (hstat : f.statRes = .ok d) (hdir : d.isDir = true)
    (hlen : r.urlPath.length = 0) :
    h.serveHTTPV2 wd w r = .error () := by
  unfold StatiqHandler.serveHTTPV2
  simp [hopen, hstat, hdir, hlen]

theorem v2_dir_noindex_page (h : StatiqHandler) (wd : World)
    (w : ResponseWriter) (r : Request) (f : File) (d : FileInfo)
    (hopen : h.root.openF (normPath r.urlPath) = .ok f)
    (hstat : f.statRes = .ok d) (hdir : d.isDir = true)
    (hslash : lastIsSlash r.urlPath = true)
    (hprobe : probeIndex h.root (normPath r.urlPath) h.indexFiles = none)
    (hlist : h.enableDirListing = false) (hpage : h.errorPage404 ≠ "") :
    h.serveHTTPV2 wd w r =
      .ok (h.serveFileV2 wd (w.writeHeader h.notFoundResponseCode)
        (goPathJoin h.rootPath h.errorPage404)) := by
  unfold StatiqHandler.serveHTTPV2
  have hlen := lastIsSlash_length_ne_zero _ hslash
  simp [hopen, hstat, hdir, hslash, hlen, hprobe, hlist, hpage]

theorem v2_dir_noindex_plain (h : StatiqHandler) (wd : World)
    (w : ResponseWriter) (r : Request) (f : File) (d : FileInfo)
    (hopen : h.root.openF (normPath r.urlPath) = .ok f)
    (hstat : f.statRes = .ok d) (hdir : d.isDir = true)
    (hslash : lastIsSlash r.urlPath = true)
    (hprobe : probeIndex h.root (normPath r.urlPath) h.indexFiles = none)
    (hlist : h.enableDirListing = false) (hpage : h.errorPage404 = "") :
    h.serveHTTPV2 wd w r = .ok (httpNotFound w) := by
  unfold StatiqHandler.serveHTTPV2
  have hlen := lastIsSlash_length_ne_zero _ hslash
  simp [hopen, hstat, hdir, hslash, hlen, hprobe, hlist, hpage]

/-- Whether opening a path succeeds; in the abstract filesystem this is
the model of the index candidate existing (and being openable). -/
def openOk (fs : FileSystem) (p : String) : Bool :=
  match fs.openF p with
  | .ok _ => true
  | .error _ => false

theorem probeIndex_eq_find (fs : FileSystem) (upath : String)
    (l : List String) :
    probeIndex fs upath l =
      (l.find? (fun i => openOk fs (goPathJoin upath i))).map
        (goPathJoin upath) := by
  induction l with
  | nil => rfl
  | cons a t ih =>
    unfold probeIndex
    cases ho : fs.openF (goPathJoin upath a) with
    | ok f =>
      have : openOk fs (goPathJoin upath a) = true := by simp [openOk, ho]
      simp [List.find?, this, ho]
    | error e =>
      have : openOk fs (goPathJoin upath a) = false := by simp [openOk, ho]
      simp [List.find?, this, ho, ih]

theorem goPathJoin_of_slash (a b : String) (ha : lastIsSlash a = true) :
    goPathJoin a b = a ++ b := by
  have hane : a ≠ "" := by
    intro h
    rw [h] at ha
    exact absurd ha (by decide)
  unfold goPathJoin
  rw [if_neg hane]
  by_cases hb : b = ""
  · rw [if_pos hb, hb]
    exact (String.append_empty a).symm
  · rw [if_neg hb, if_pos ha]

theorem lastIsSlash_normPath (p : String) (hp : lastIsSlash p = true) :
    lastIsSlash (normPath p) = true := by
  unfold normPath
  split
  · exact hp
  · unfold lastIsSlash at hp ⊢
    have hne : p.toList ≠ [] := by
      intro h
      rw [h] at hp
      exact absurd hp (by decide)
    have hl : ("/" ++ p).toList = '/' :: p.toList := by
      simp [String.toList]
    have hlast : ('/' :: p.toList).getLast? = p.toList.getLast? :=
      List.getLast?_append_of_ne_nil ['/'] hne
    rw [hl, hlast]
    exact hp

theorem New_ok_fields (statF : String → Except ErrKind FileInfo)
    (mkdirOk : Bool) (rootFS : FileSystem) (root : String) (config : Config)
    (h : StatiqHandler)
    (hnew : New statF mkdirOk rootFS root config = .ok h) :
    h.root = rootFS ∧ h.rootPath = root ∧
    h.enableDirListing = config.enableDirectoryListing ∧
    h.indexFiles = config.indexFiles ∧
    h.spaMode = config.spaMode ∧ h.spaIndex = config.spaIndex ∧
    h.errorPage404 = config.errorPage404 ∧
    h.notFoundResponseCode = (if config.errorPage404 ≠ "" then 200 else 404) := by
  unfold New at hnew
  by_cases h0 : ((match statF root with
      | .error .notExist => true | _ => false) && !mkdirOk) = true
  · rw [if_pos h0] at hnew
    exact absurd hnew (by simp)
  · rw [if_neg h0] at hnew
    by_cases hp : config.errorPage404 ≠ ""
    · rw [if_pos hp] at hnew
      cases hst : statF (goPathJoin root config.errorPage404) with
      | error e =>
        cases e with
        | notExist => simp [hst] at hnew
        | permission =>
          simp only [hst, Except.ok.injEq] at hnew
          subst hnew
          rw [if_pos hp]
          exact ⟨rfl, rfl, rfl, rfl, rfl, rfl, rfl, rfl⟩
        | other =>
          simp only [hst, Except.ok.injEq] at hnew
          subst hnew
          rw [if_pos hp]
          exact ⟨rfl, rfl, rfl, rfl, rfl, rfl, rfl, rfl⟩
      | ok fi =>
        simp only [hst, Except.ok.injEq] at hnew
        subst hnew
        rw [if_pos hp]
        exact ⟨rfl, rfl, rfl, rfl, rfl, rfl, rfl, rfl⟩
    · rw [if_neg hp] at hnew
      simp only [Except.ok.injEq] at hnew
      subst hnew
      rw [if_neg hp]
      exact ⟨rfl, rfl, rfl, rfl, rfl, rfl, rfl, rfl⟩

theorem mergeLe_trans : ∀ a b c : FileInfo,
    (!(lessFn b a)) = true → (!(lessFn c b)) = true → (!(lessFn c a)) = true := by
  intro a b c h1 h2
  rw [Bool.not_eq_true'] at h1 h2 ⊢
  unfold lessFn at h1 h2 ⊢
  cases ha : a.isDir <;> cases hb : b.isDir <;> cases hc : c.isDir <;>
    simp [ha, hb, hc] at h1 h2 ⊢ <;>
    exact le_trans h1 h2

theorem mergeLe_total : ∀ a b : FileInfo,
    ((!(lessFn b a)) || (!(lessFn a b))) = true := by
  intro a b
  rcases h : lessFn b a with _ | _
  · simp
  · unfold lessFn at h ⊢
    cases ha : a.isDir <;> cases hb : b.isDir <;> simp [ha, hb] at h ⊢ <;>
      exact le_of_lt h

/-- The entry order the directory listing guarantees: every directory
before every file, names nondecreasing within a group. -/
def entryOrder (a b : FileInfo) : Prop :=
  (a.isDir = true ∧ b.isDir = false) ∨ (a.isDir = b.isDir ∧ a.name ≤ b.name)

theorem sortEntries_pairwise (dirs : List FileInfo) :
    List.Pairwise entryOrder (sortEntries dirs) := by
  have h := List.sorted_mergeSort mergeLe_trans mergeLe_total dirs
  refine h.imp ?_
  intro a b hab
  rw [Bool.not_eq_true'] at hab
  unfold lessFn at hab
  unfold entryOrder
  cases ha : a.isDir <;> cases hb : b.isDir <;> simp [ha, hb] at hab ⊢ <;>
    exact hab

/-
  Claim theorems.
-/

/-- C3: when spaMode is true, every request whose normalized path does not
exist is answered with status 200 and the exact byte content of the file at
root/spaIndexFile, for an arbitrary request path and query (so regardless
of depth or extension), and for an arbitrary errorPage404 setting: the SPA
fallback is chosen, never the custom error page. -/
theorem c3_spa_fallback (h : StatiqHandler) (wd : World) (r : Request)
    (f : File) (d : FileInfo)
    (hspa : h.spaMode = true)
    (hopen : h.root.openF (normPath r.urlPath) = .error .notExist)
    (hfile : wd.osFS.openF (goPathJoin h.rootPath h.spaIndex) = .ok f)
    (hstat : f.statRes = .ok d) :
    (h.serveHTTPV1 wd .empty r).status = some 200 ∧
    (h.serveHTTPV1 wd .empty r).body = f.content := by
  rw [v1_notExist_spa h wd _ r hopen hspa]
  constructor
  · exact serveFileV1_ok_status_of_none h wd _ _ f d hfile hstat rfl
  · rw [serveFileV1_ok_body h wd _ _ f d hfile hstat]
    rfl

/-- Concrete instances used by witnesses: a plain file, an unreadable file,
a directory, and handlers over small filesystems. -/
def wSpaInfo : FileInfo :=
  { name := "index.html", size := 5, mode := 420, modTime := 7, isDir := false }

def wSpaFile : File :=
  { statRes := .ok wSpaInfo, content := "<spa>", readdirRes := .error .other }

def wDirInfo : FileInfo :=
  { name := "d", size := 0, mode := 493, modTime := 3, isDir := true }

def wDirFile : File :=
  { statRes := .ok wDirInfo, content := "", readdirRes := .ok [] }

def wMissingFS : FileSystem := { openF := fun _ => .error .notExist }

def wSpaOS : FileSystem :=
  { openF := fun p =>
      if p == "/root/index.html" then .ok wSpaFile else .error .notExist }

def wSpaHandler : StatiqHandler :=
  { root := wMissingFS, rootPath := "/root", enableDirListing := false,
    indexFiles := ["index.html"], spaMode := true, spaIndex := "index.html",
    errorPage404 := "404.html", cacheControl := [],
    notFoundResponseCode := 200 }

def wSpaWorld : World := { osFS := wSpaOS, mime := fun _ => "" }

/-- C3 witness: a deep extensionless path with a query, with errorPage404
also configured, still yields 200 and the SPA bytes. -/
theorem c3_witness :
    (wSpaHandler.serveHTTPV1 wSpaWorld .empty
      { urlPath := "/any/deep/route", rawQuery := "x=1" }).status = some 200 ∧
    (wSpaHandler.serveHTTPV1 wSpaWorld .empty
      { urlPath := "/any/deep/route", rawQuery := "x=1" }).body = "<spa>" :=
  c3_spa_fallback wSpaHandler wSpaWorld
    { urlPath := "/any/deep/route", rawQuery := "x=1" }
    wSpaFile wSpaInfo rfl rfl rfl rfl

/-- C4: when errorPage404 is set and spaMode is false, a handler built by
New answers every request for a nonexistent path with status 200 — the
status value fixed to 200 at construction — and the exact byte content of
the configured error page. -/
theorem c4_error_page (statF : String → Except ErrKind FileInfo)
    (mkdirOk : Bool) (rootFS : FileSystem) (root : String) (config : Config)
    (h : StatiqHandler) (wd : World) (r : Request) (f : File) (d : FileInfo)
    (hpage : config.errorPage404 ≠ "") (hspa : config.spaMode = false)
    (hnew : New statF mkdirOk rootFS root config = .ok h)
    (hopen : h.root.openF (normPath r.urlPath) = .error .notExist)
    (hfile : wd.osFS.openF (goPathJoin root config.errorPage404) = .ok f)
    (hstat : f.statRes = .ok d) :
    h.notFoundResponseCode = 200 ∧
    (h.serveHTTPV1 wd .empty r).status = some 200 ∧
    (h.serveHTTPV1 wd .empty r).body = f.content := by
  obtain ⟨-, hroot, -, -, hspa', -, hpage', hcode⟩ :=
    New_ok_fields statF mkdirOk rootFS root config h hnew
  have hc : h.notFoundResponseCode = 200 := by rw [hcode, if_pos hpage]
  have hred : h.serveHTTPV1 wd .empty r =
      h.serveFileV1 wd (ResponseWriter.empty.writeHeader h.notFoundResponseCode)
        (goPathJoin root config.errorPage404) := by
    rw [← hroot, ← hpage']
    exact v1_notExist_page h wd _ r hopen (hspa'.trans hspa)
      (by rw [hpage']; exact hpage)
  have hws : (ResponseWriter.empty.writeHeader h.notFoundResponseCode).status =
      some 200 := by
    rw [writeHeader_status_of_none _ _ rfl, hc]
  refine ⟨hc, ?_, ?_⟩
  · rw [hred]
    exact serveFileV1_ok_status_of_some h wd _ _ f d 200 hfile hstat hws
  · rw [hred, serveFileV1_ok_body h wd _ _ f d hfile hstat, writeHeader_body]
    rfl

def wPageInfo : FileInfo :=
  { name := "404.html", size := 6, mode := 420, modTime := 9, isDir := false }

def wPageFile : File :=
  { statRes := .ok wPageInfo, content := "<err4>", readdirRes := .error .other }

def wPageOS : FileSystem :=
  { openF := fun p =>
      if p == "/root/404.html" then .ok wPageFile else .error .notExist }

def wPageConfig : Config :=
  { root := "/root", enableDirectoryListing := false,
    indexFiles := ["index.html"], spaMode := false, spaIndex := "index.html",
    errorPage404 := "404.html", cacheControl := [] }

def wPageStatF : String → Except ErrKind FileInfo := fun p =>
  if p == "/root/404.html" then .ok wPageInfo
  else if p == "/root" then .ok wDirInfo
  else .error .notExist

def wPageHandler : StatiqHandler :=
  { root := wMissingFS, rootPath := "/root", enableDirListing := false,
    indexFiles := ["index.html"], spaMode := false, spaIndex := "index.html",
    errorPage404 := "404.html", cacheControl := [],
    notFoundResponseCode := 200 }

def wPageWorld : World := { osFS := wPageOS, mime := fun _ => "" }

/-- C4 witness: the concrete handler built by New over the error-page
configuration answers a missing path with 200 and the error-page bytes. -/
theorem c4_witness :
    wPageHandler.notFoundResponseCode = 200 ∧
    (wPageHandler.serveHTTPV1 wPageWorld .empty
      { urlPath := "/missing.txt", rawQuery := "" }).status = some 200 ∧
    (wPageHandler.serveHTTPV1 wPageWorld .empty
      { urlPath := "/missing.txt", rawQuery := "" }).body = "<err4>" :=
  c4_error_page wPageStatF true wMissingFS "/root" wPageConfig wPageHandler
    wPageWorld { urlPath := "/missing.txt", rawQuery := "" }
    wPageFile wPageInfo (by decide) rfl rfl rfl rfl rfl

/-- C6: a request resolving to a directory whose original path does not end
in a slash is answered with a 301 whose Location is the original path with
a slash appended, followed by a question mark and the query when one is
present. -/
theorem c6_dir_redirect (h : StatiqHandler) (wd : World) (r : Request)
    (f : File) (d : FileInfo)
    (hopen : h.root.openF (normPath r.urlPath) = .ok f)
    (hstat : f.statRes = .ok d) (hdir : d.isDir = true)
    (hslash : lastIsSlash r.urlPath = false) :
    (h.serveHTTPV1 wd .empty r).status = some 301 ∧
    lookupAssoc (h.serveHTTPV1 wd .empty r).sentHeaders "Location" =
      some (if r.rawQuery = "" then r.urlPath ++ "/"
            else r.urlPath ++ "/" ++ "?" ++ r.rawQuery) := by
  rw [v1_dir_noslash h wd _ r f d hopen hstat hdir hslash]
  exact ⟨localRedirect_status_of_none _ _ _ rfl,
    localRedirect_location_of_none _ _ _ rfl⟩

def wDirFS : FileSystem :=
  { openF := fun p => if p == "/sub" then .ok wDirFile else .error .notExist }

def wDirHandler : StatiqHandler :=
  { root := wDirFS, rootPath := "/root", enableDirListing := false,
    indexFiles := ["index.html"], spaMode := false, spaIndex := "index.html",
    errorPage404 := "", cacheControl := [], notFoundResponseCode := 404 }

def wEmptyWorld : World := { osFS := wMissingFS, mime := fun _ => "" }

/-- C6 witness: /sub with a query redirects to /sub/?a=b. -/
theorem c6_witness :
    (wDirHandler.serveHTTPV1 wEmptyWorld .empty
      { urlPath := "/sub", rawQuery := "a=b" }).status = some 301 ∧
    lookupAssoc (wDirHandler.serveHTTPV1 wEmptyWorld .empty
      { urlPath := "/sub", rawQuery := "a=b" }).sentHeaders "Location" =
      some "/sub/?a=b" :=
  c6_dir_redirect wDirHandler wEmptyWorld { urlPath := "/sub", rawQuery := "a=b" }
    wDirFile wDirInfo (by rfl) rfl rfl (by decide)

/-- C10: with errorPage404 configured (so a handler built by New carries
notFoundResponseCode 200) and spaMode false, the 200 status is committed
before the error page is opened; if opening or stat-ing the error page then
fails at request time, the client still receives status 200 together with
the 500 handler's error text, because the committed status cannot be
replaced. -/
theorem c10_committed_status (statF : String → Except ErrKind FileInfo)
    (mkdirOk : Bool) (rootFS : FileSystem) (root : String) (config : Config)
    (h : StatiqHandler) (wd : World) (r : Request)
    (hpage : config.errorPage404 ≠ "") (hspa : config.spaMode = false)
    (hnew : New statF mkdirOk rootFS root config = .ok h)
    (hopen : h.root.openF (normPath r.urlPath) = .error .notExist)
    (hfail : (∃ e, wd.osFS.openF (goPathJoin root config.errorPage404) = .error e) ∨
      (∃ f e, wd.osFS.openF (goPathJoin root config.errorPage404) = .ok f ∧
        f.statRes = .error e)) :
    (h.serveHTTPV1 wd .empty r).status = some 200 ∧
    (h.serveHTTPV1 wd .empty r).body = "Internal Server Error\n" := by
  obtain ⟨-, hroot, -, -, hspa', -, hpage', hcode⟩ :=
    New_ok_fields statF mkdirOk rootFS root config h hnew
  have hc : h.notFoundResponseCode = 200 := by rw [hcode, if_pos hpage]
  have hred : h.serveHTTPV1 wd .empty r =
      h.serveFileV1 wd (ResponseWriter.empty.writeHeader h.notFoundResponseCode)
        (goPathJoin root config.errorPage404) := by
    rw [← hroot, ← hpage']
    exact v1_notExist_page h wd _ r hopen (hspa'.trans hspa)
      (by rw [hpage']; exact hpage)
  have hws : (ResponseWriter.empty.writeHeader h.notFoundResponseCode).status =
      some 200 := by
    rw [writeHeader_status_of_none _ _ rfl, hc]
  have herr : h.serveHTTPV1 wd .empty r =
      httpError (ResponseWriter.empty.writeHeader h.notFoundResponseCode)
        "Internal Server Error" 500 := by
    rw [hred]
    rcases hfail with ⟨e, he⟩ | ⟨f, e, hf, hs⟩
    · exact serveFileV1_open_err h wd _ _ e he
    · exact serveFileV1_stat_err h wd _ _ f e hf hs
  rw [herr]
  constructor
  · exact httpError_status_of_some _ _ 500 200 hws
  · rw [httpError_body, writeHeader_body]
    rfl

def wGoneOS : FileSystem := { openF := fun _ => .error .permission }

def wGoneWorld : World := { osFS := wGoneOS, mime := fun _ => "" }

/-- C10 witness: the error page existed at construction but cannot be
opened at request time; the client still sees status 200, with the 500
error text as body. -/
theorem c10_witness :
    (wPageHandler.serveHTTPV1 wGoneWorld .empty
      { urlPath := "/missing.txt", rawQuery := "" }).status = some 200 ∧
    (wPageHandler.serveHTTPV1 wGoneWorld .empty
      { urlPath := "/missing.txt", rawQuery := "" }).body =
      "Internal Server Error\n" :=
  c10_committed_status wPageStatF true wMissingFS "/root" wPageConfig
    wPageHandler wGoneWorld { urlPath := "/missing.txt", rawQuery := "" }
    (by decide) rfl rfl rfl (Or.inl ⟨.permission, rfl⟩)

/-- C7: a request for a directory with trailing slash in which some
configured index name opens successfully is answered with a 301 redirect to
directory path plus index name, where the index name is the first entry of
indexFiles, in configured order, whose joined path opens — never a later
entry (List.find? returns the first match). -/
theorem c7_first_index_redirect (h : StatiqHandler) (wd : World) (r : Request)
    (f : File) (d : FileInfo) (idx : String)
    (hopen : h.root.openF (normPath r.urlPath) = .ok f)
    (hstat : f.statRes = .ok d) (hdir : d.isDir = true)
    (hslash : lastIsSlash r.urlPath = true)
    (hfind : h.indexFiles.find?
      (fun i => openOk h.root (goPathJoin (normPath r.urlPath) i)) = some idx) :
    (h.serveHTTPV1 wd .empty r).status = some 301 ∧
    lookupAssoc (h.serveHTTPV1 wd .empty r).sentHeaders "Location" =
      some (if r.rawQuery = "" then normPath r.urlPath ++ idx
            else normPath r.urlPath ++ idx ++ "?" ++ r.rawQuery) := by
  have hprobe : probeIndex h.root (normPath r.urlPath) h.indexFiles =
      some (goPathJoin (normPath r.urlPath) idx) := by
    rw [probeIndex_eq_find, hfind]
    rfl
  have hj : goPathJoin (normPath r.urlPath) idx = normPath r.urlPath ++ idx :=
    goPathJoin_of_slash _ _ (lastIsSlash_normPath _ hslash)
  rw [hj] at hprobe
  rw [v1_dir_index h wd _ r f d _ hopen hstat hdir hslash hprobe]
  exact ⟨localRedirect_status_of_none _ _ _ rfl,
    localRedirect_location_of_none _ _ _ rfl⟩

def wIdxInfo : FileInfo :=
  { name := "index.htm", size := 2, mode := 420, modTime := 4, isDir := false }

def wIdxFile : File :=
  { statRes := .ok wIdxInfo, content := "ix", readdirRes := .error .other }

def wIdxFS : FileSystem :=
  { openF := fun p =>
      if p == "/sub/" then .ok wDirFile
      else if p == "/sub/index.htm" then .ok wIdxFile
      else .error .notExist }

def wIdxHandler : StatiqHandler :=
  { root := wIdxFS, rootPath := "/root", enableDirListing := false,
    indexFiles := ["index.html", "index.htm"], spaMode := false,
    spaIndex := "index.html", errorPage404 := "", cacheControl := [],
    notFoundResponseCode := 404 }

/-- C7 witness: index.html is missing and index.htm exists, so the probe
skips the first configured name and redirects to /sub/index.htm. -/
theorem c7_witness :
    (wIdxHandler.serveHTTPV1 wEmptyWorld .empty
      { urlPath := "/sub/", rawQuery := "" }).status = some 301 ∧
    lookupAssoc (wIdxHandler.serveHTTPV1 wEmptyWorld .empty
      { urlPath := "/sub/", rawQuery := "" }).sentHeaders "Location" =
      some "/sub/index.htm" :=
  c7_first_index_redirect wIdxHandler wEmptyWorld
    { urlPath := "/sub/", rawQuery := "" } wDirFile wDirInfo "index.htm"
    (by rfl) rfl rfl (by decide) (by rfl)

theorem setCacheHeaders_lookup_cc (h : StatiqHandler) (w : ResponseWriter)
    (d : FileInfo) :
    lookupAssoc (h.setCacheHeaders w d).headerMap "Cache-Control" =
      some (cacheControlValue h.cacheControl (filepathExt d.name)) := by
  rw [setCacheHeaders_eq, lookupAssoc_setHeader_ne _ _ _ _ (by decide),
    lookupAssoc_setHeader_self]

theorem setCacheHeaders_lookup_lm (h : StatiqHandler) (w : ResponseWriter)
    (d : FileInfo) :
    lookupAssoc (h.setCacheHeaders w d).headerMap "Last-Modified" =
      some (httpTimeFormat d.modTime) := by
  rw [setCacheHeaders_eq, lookupAssoc_setHeader_self]

/-- C8: every file served through the main branch carries a Cache-Control
header chosen by the precedence exact extension entry, else wildcard entry,
else the literal max-age=86400 (the value cacheControlValue computes), and
a Last-Modified header rendered from the file's modification time. -/
theorem c8_cache_headers (h : StatiqHandler) (wd : World) (r : Request)
    (f : File) (d : FileInfo)
    (hopen : h.root.openF (normPath r.urlPath) = .ok f)
    (hstat : f.statRes = .ok d) (hdir : d.isDir = false) :
    lookupAssoc (h.serveHTTPV1 wd .empty r).sentHeaders "Cache-Control" =
      some (cacheControlValue h.cacheControl (filepathExt d.name)) ∧
    lookupAssoc (h.serveHTTPV1 wd .empty r).sentHeaders "Last-Modified" =
      some (httpTimeFormat d.modTime) := by
  rw [v1_file h wd _ r f d hopen hstat hdir]
  by_cases hct : wd.mime (filepathExt d.name) ≠ ""
  · rw [if_pos hct]
    have hs : ((h.setCacheHeaders .empty d).setHeader "Content-Type"
        (wd.mime (filepathExt d.name))).status = none := by
      rw [setHeader_status, setCacheHeaders_status]
      rfl
    constructor
    · rw [serveContent_sent_lookup _ _ _ _ _ _ hs (by decide) (by decide),
        lookupAssoc_setHeader_ne _ _ _ _ (by decide), setCacheHeaders_lookup_cc]
    · apply serveContent_sent_lastModified _ _ _ _ _ hs
      rw [lookupAssoc_setHeader_ne _ _ _ _ (by decide), setCacheHeaders_lookup_lm]
  · rw [if_neg hct]
    have hs : (h.setCacheHeaders .empty d).status = none := by
      rw [setCacheHeaders_status]
      rfl
    constructor
    · rw [serveContent_sent_lookup _ _ _ _ _ _ hs (by decide) (by decide),
        setCacheHeaders_lookup_cc]
    · exact serveContent_sent_lastModified _ _ _ _ _ hs
        (setCacheHeaders_lookup_lm h _ d)

def wCssInfo : FileInfo :=
  { name := "a.css", size := 3, mode := 420, modTime := 5, isDir := false }

def wCssFile : File :=
  { statRes := .ok wCssInfo, content := "css", readdirRes := .error .other }

def wCssFS : FileSystem :=
  { openF := fun p => if p == "/a.css" then .ok wCssFile else .error .notExist }

def wCssHandler : StatiqHandler :=
  { root := wCssFS, rootPath := "/root", enableDirListing := false,
    indexFiles := [], spaMode := false, spaIndex := "index.html",
    errorPage404 := "",
    cacheControl := [(".css", "max-age=3600"), ("*", "max-age=600")],
    notFoundResponseCode := 404 }

/-- C8 witness: a .css file under a configuration with both an exact .css
entry and a wildcard entry gets the exact entry, with Last-Modified from
its modification time. -/
theorem c8_witness :
    lookupAssoc (wCssHandler.serveHTTPV1 wEmptyWorld .empty
      { urlPath := "/a.css", rawQuery := "" }).sentHeaders "Cache-Control" =
      some "max-age=3600" ∧
    lookupAssoc (wCssHandler.serveHTTPV1 wEmptyWorld .empty
      { urlPath := "/a.css", rawQuery := "" }).sentHeaders "Last-Modified" =
      some (httpTimeFormat 5) :=
  c8_cache_headers wCssHandler wEmptyWorld { urlPath := "/a.css", rawQuery := "" }
    wCssFile wCssInfo (by rfl) rfl rfl

/-- C9: a rendered directory listing presents the entries sorted with every
directory before every file and names nondecreasing within each group, and
its HTML carries the parent-directory row exactly when the request path is
not the root: for a non-root path the parent row occurs in the body, for
the root path the body is exactly head, entry rows and footer with no
parent row. -/
theorem c9_listing (h : StatiqHandler) (r : Request) (f : File)
    (dirs : List FileInfo) (hrd : f.readdirRes = .ok dirs) :
    ∃ entries : List dirEntry,
      (h.serveDirectoryListing .empty r f).body = dirlistHTML r.urlPath entries ∧
      List.Pairwise (fun a b => (a.IsDir = true ∧ b.IsDir = false) ∨
        (a.IsDir = b.IsDir ∧ a.Name ≤ b.Name)) entries ∧
      (r.urlPath ≠ "/" → ∃ pre post,
        (h.serveDirectoryListing .empty r f).body =
          pre ++ dirlistParentRow ++ post) ∧
      (r.urlPath = "/" → (h.serveDirectoryListing .empty r f).body =
        dirlistHead "/" ++ String.join (entries.map dirlistRow) ++ dirlistFoot) := by
  have hbody : (h.serveDirectoryListing .empty r f).body =
      dirlistHTML r.urlPath ((sortEntries dirs).map (fun e =>
        { Name := e.name, Size := e.size, Mode := e.mode,
          ModTime := e.modTime, IsDir := e.isDir })) := by
    unfold StatiqHandler.serveDirectoryListing
    simp only [hrd]
    rw [write_body, setHeader_body]
    rfl
  refine ⟨_, hbody, ?_, ?_, ?_⟩
  · exact List.pairwise_map.mpr ((sortEntries_pairwise dirs).imp (fun hab => hab))
  · intro hne
    refine ⟨dirlistHead r.urlPath,
      String.join (((sortEntries dirs).map (fun e =>
        { Name := e.name, Size := e.size, Mode := e.mode,
          ModTime := e.modTime, IsDir := e.isDir } : FileInfo → dirEntry)).map
          dirlistRow) ++ dirlistFoot, ?_⟩
    rw [hbody]
    unfold dirlistHTML
    rw [if_neg hne, String.append_assoc]
  · intro hroot
    rw [hbody]
    unfold dirlistHTML
    rw [if_pos hroot, hroot, String.append_empty]

def wListDirs : List FileInfo :=
  [{ name := "b.txt", size := 1, mode := 420, modTime := 1, isDir := false },
   { name := "a", size := 0, mode := 493, modTime := 2, isDir := true }]

def wListFile : File :=
  { statRes := .ok wDirInfo, content := "", readdirRes := .ok wListDirs }

/-- C9 witness: a two-entry directory at a non-root path. -/
theorem c9_witness :
    ∃ entries : List dirEntry,
      (wDirHandler.serveDirectoryListing .empty
        { urlPath := "/sub/", rawQuery := "" } wListFile).body =
        dirlistHTML "/sub/" entries ∧
      List.Pairwise (fun a b => (a.IsDir = true ∧ b.IsDir = false) ∨
        (a.IsDir = b.IsDir ∧ a.Name ≤ b.Name)) entries ∧
      (("/sub/" : String) ≠ "/" → ∃ pre post,
        (wDirHandler.serveDirectoryListing .empty
          { urlPath := "/sub/", rawQuery := "" } wListFile).body =
          pre ++ dirlistParentRow ++ post) ∧
      (("/sub/" : String) = "/" →
        (wDirHandler.serveDirectoryListing .empty
          { urlPath := "/sub/", rawQuery := "" } wListFile).body =
        dirlistHead "/" ++ String.join (entries.map dirlistRow) ++ dirlistFoot) :=
  c9_listing wDirHandler { urlPath := "/sub/", rawQuery := "" } wListFile
    wListDirs rfl

def wOtherFS : FileSystem := { openF := fun _ => .error .other }

def wOtherHandler : StatiqHandler :=
  { root := wOtherFS, rootPath := "/root", enableDirListing := false,
    indexFiles := [], spaMode := false, spaIndex := "index.html",
    errorPage404 := "", cacheControl := [], notFoundResponseCode := 404 }

/-- C1 counterexample: an open failure of a kind other than not-exist and
other than permission-denied is answered with 403 Forbidden by the code,
not with the 500 the claim requires for any non-permission open failure. -/
theorem c1_counterexample :
    (wOtherHandler.serveHTTPV1 wEmptyWorld .empty
      { urlPath := "/blocked", rawQuery := "" }).status = some 403 ∧
    (wOtherHandler.serveHTTPV1 wEmptyWorld .empty
      { urlPath := "/blocked", rawQuery := "" }).status ≠ some 500 := by
  have hr := v1_open_err wOtherHandler wEmptyWorld .empty
    { urlPath := "/blocked", rawQuery := "" } .other rfl (by decide)
  rw [hr]
  rw [httpError_status_of_none _ _ _ rfl]
  exact ⟨rfl, by decide⟩

/-- C1 (amended): any open failure other than not-exist — permission-denied
or otherwise — yields 403 Forbidden; a stat failure after a successful open
yields 500; a not-exist open failure is routed to the rule-3 not-found
handling (SPA fallback, else custom error page, else plain 404), in both
source variants (rule-3 routing shown on the first variant). -/
theorem c1_amended (h : StatiqHandler) (wd : World) (r : Request) :
    (∀ e : ErrKind, e ≠ .notExist →
      h.root.openF (normPath r.urlPath) = .error e →
      h.serveHTTPV1 wd .empty r = httpError .empty "Forbidden" 403 ∧
      h.serveHTTPV2 wd .empty r = .ok (httpError .empty "Forbidden" 403)) ∧
    (∀ (f : File) (e : ErrKind),
      h.root.openF (normPath r.urlPath) = .ok f → f.statRes = .error e →
      h.serveHTTPV1 wd .empty r = httpError .empty "Internal Server Error" 500 ∧
      h.serveHTTPV2 wd .empty r =
        .ok (httpError .empty "Internal Server Error" 500)) ∧
    (h.root.openF (normPath r.urlPath) = .error .notExist →
      (h.spaMode = true →
        h.serveHTTPV1 wd .empty r =
          h.serveFileV1 wd .empty (goPathJoin h.rootPath h.spaIndex)) ∧
      (h.spaMode = false → h.errorPage404 ≠ "" →
        h.serveHTTPV1 wd .empty r =
          h.serveFileV1 wd
            (ResponseWriter.empty.writeHeader h.notFoundResponseCode)
            (goPathJoin h.rootPath h.errorPage404)) ∧
      (h.spaMode = false → h.errorPage404 = "" →
        h.serveHTTPV1 wd .empty r = httpNotFound .empty)) := by
  refine ⟨?_, ?_, ?_⟩
  · intro e he hopen
    exact ⟨v1_open_err h wd .empty r e hopen he,
      v2_open_err h wd .empty r e hopen he⟩
  · intro f e hopen hstat
    exact ⟨v1_stat_err h wd .empty r f e hopen hstat,
      v2_stat_err h wd .empty r f e hopen hstat⟩
  · intro hopen
    exact ⟨fun hspa => v1_notExist_spa h wd .empty r hopen hspa,
      fun hspa hpage => v1_notExist_page h wd .empty r hopen hspa hpage,
      fun hspa hpage => v1_notExist_plain h wd .empty r hopen hspa hpage⟩

def wStatErrFile : File :=
  { statRes := .error .other, content := "", readdirRes := .error .other }

def wErrFS : FileSystem :=
  { openF := fun p =>
      if p == "/o" then .error .other
      else if p == "/s" then .ok wStatErrFile
      else .error .notExist }

def wErrHandler : StatiqHandler :=
  { root := wErrFS, rootPath := "/root", enableDirListing := false,
    indexFiles := [], spaMode := false, spaIndex := "index.html",
    errorPage404 := "", cacheControl := [], notFoundResponseCode := 404 }

/-- C1 witness: over one concrete handler, an other-kind open failure gives
403, a stat failure gives 500, and a missing path lands in the plain-404
leg of rule 3. -/
theorem c1_witness :
    wErrHandler.serveHTTPV1 wEmptyWorld .empty
      { urlPath := "/o", rawQuery := "" } = httpError .empty "Forbidden" 403 ∧
    wErrHandler.serveHTTPV1 wEmptyWorld .empty
      { urlPath := "/s", rawQuery := "" } =
      httpError .empty "Internal Server Error" 500 ∧
    wErrHandler.serveHTTPV1 wEmptyWorld .empty
      { urlPath := "/m", rawQuery := "" } = httpNotFound .empty :=
  ⟨((c1_amended wErrHandler wEmptyWorld
      { urlPath := "/o", rawQuery := "" }).1 .other (by decide) (by rfl)).1,
   ((c1_amended wErrHandler wEmptyWorld
      { urlPath := "/s", rawQuery := "" }).2.1 wStatErrFile .other (by rfl) rfl).1,
   ((c1_amended wErrHandler wEmptyWorld
      { urlPath := "/m", rawQuery := "" }).2.2 (by rfl)).2.2 rfl rfl⟩

def wD2FS : FileSystem :=
  { openF := fun p => if p == "/d/" then .ok wDirFile else .error .notExist }

def wSpaDirHandler : StatiqHandler :=
  { root := wD2FS, rootPath := "/root", enableDirListing := false,
    indexFiles := [], spaMode := true, spaIndex := "index.html",
    errorPage404 := "", cacheControl := [], notFoundResponseCode := 404 }

/-- C2 counterexample: with spaMode true and no error page, a directory
with no index and listing disabled is answered with a plain 404 — not with
the SPA index at status 200 that rule 3a, as the claim requires, would
give. -/
theorem c2_counterexample :
    (wSpaDirHandler.serveHTTPV1 wEmptyWorld .empty
      { urlPath := "/d/", rawQuery := "" }).status = some 404 ∧
    (wSpaDirHandler.serveHTTPV1 wEmptyWorld .empty
      { urlPath := "/d/", rawQuery := "" }).status ≠ some 200 := by
  have hr := v1_dir_noindex_plain wSpaDirHandler wEmptyWorld .empty
    { urlPath := "/d/", rawQuery := "" } wDirFile wDirInfo
    (by rfl) rfl rfl (by decide) (by rfl) rfl rfl
  rw [hr]
  unfold httpNotFound
  rw [httpError_status_of_none _ _ _ rfl]
  exact ⟨rfl, by decide⟩

/-- C2 (amended): a directory with trailing slash, no matching index file
and listing disabled falls through to the not-found handling with the SPA
fallback skipped: the custom error page is served when configured and a
plain 404 is emitted otherwise, regardless of spaMode, in both source
variants. -/
theorem c2_amended (h : StatiqHandler) (wd : World) (r : Request)
    (f : File) (d : FileInfo)
    (hopen : h.root.openF (normPath r.urlPath) = .ok f)
    (hstat : f.statRes = .ok d) (hdir : d.isDir = true)
    (hslash : lastIsSlash r.urlPath = true)
    (hprobe : probeIndex h.root (normPath r.urlPath) h.indexFiles = none)
    (hlist : h.enableDirListing = false) :
    (h.errorPage404 = "" →
      h.serveHTTPV1 wd .empty r = httpNotFound .empty ∧
      h.serveHTTPV2 wd .empty r = .ok (httpNotFound .empty)) ∧
    (h.errorPage404 ≠ "" →
      h.serveHTTPV1 wd .empty r =
        h.serveFileV1 wd (ResponseWriter.empty.writeHeader h.notFoundResponseCode)
          (goPathJoin h.rootPath h.errorPage404) ∧
      h.serveHTTPV2 wd .empty r =
        .ok (h.serveFileV2 wd
          (ResponseWriter.empty.writeHeader h.notFoundResponseCode)
          (goPathJoin h.rootPath h.errorPage404))) := by
  constructor
  · intro hpage
    exact ⟨v1_dir_noindex_plain h wd .empty r f d hopen hstat hdir hslash hprobe
        hlist hpage,
      v2_dir_noindex_plain h wd .empty r f d hopen hstat hdir hslash hprobe
        hlist hpage⟩
  · intro hpage
    exact ⟨v1_dir_noindex_page h wd .empty r f d hopen hstat hdir hslash hprobe
        hlist hpage,
      v2_dir_noindex_page h wd .empty r f d hopen hstat hdir hslash hprobe
        hlist hpage⟩

def wSpaDirPageHandler : StatiqHandler :=
  { root := wD2FS, rootPath := "/root", enableDirListing := false,
    indexFiles := [], spaMode := true, spaIndex := "index.html",
    errorPage404 := "404.html", cacheControl := [],
    notFoundResponseCode := 200 }

/-- C2 witness: the plain-404 leg with spaMode true, and the error-page leg
with spaMode true, both at a concrete indexless directory. -/
theorem c2_witness :
    wSpaDirHandler.serveHTTPV1 wEmptyWorld .empty
      { urlPath := "/d/", rawQuery := "" } = httpNotFound .empty ∧
    wSpaDirPageHandler.serveHTTPV1 wEmptyWorld .empty
      { urlPath := "/d/", rawQuery := "" } =
      wSpaDirPageHandler.serveFileV1 wEmptyWorld
        (ResponseWriter.empty.writeHeader 200) "/root/404.html" :=
  ⟨((c2_amended wSpaDirHandler wEmptyWorld { urlPath := "/d/", rawQuery := "" }
      wDirFile wDirInfo (by rfl) rfl rfl (by decide) (by rfl) rfl).1 rfl).1,
   ((c2_amended wSpaDirPageHandler wEmptyWorld { urlPath := "/d/", rawQuery := "" }
      wDirFile wDirInfo (by rfl) rfl rfl (by decide) (by rfl) rfl).2
      (by decide)).1⟩

def wRootDirFS : FileSystem :=
  { openF := fun p => if p == "/" then .ok wDirFile else .error .notExist }

def wRootDirHandler : StatiqHandler :=
  { root := wRootDirFS, rootPath := "/root", enableDirListing := false,
    indexFiles := [], spaMode := false, spaIndex := "index.html",
    errorPage404 := "", cacheControl := [], notFoundResponseCode := 404 }

/-- C5 counterexample: the second source variant evaluates url[len(url)-1]
without a length guard; on an empty original URL path resolving to the
root directory it indexes out of bounds (the modelled panic, Except.error),
so it is not true that both variants guard before indexing. -/
theorem c5_counterexample :
    wRootDirHandler.serveHTTPV2 wEmptyWorld .empty
      { urlPath := "", rawQuery := "" } = .error () :=
  v2_dir_outOfRange wRootDirHandler wEmptyWorld .empty
    { urlPath := "", rawQuery := "" } wDirFile wDirInfo (by rfl) rfl rfl rfl

/-- C5 (amended): on an empty original URL path resolving to a directory,
the first source variant is guarded by its length check and redirects to
the root path, while the second variant evaluates url[len(url)-1]
unguarded and panics with an index out of range. -/
theorem c5_amended (h : StatiqHandler) (wd : World) (r : Request)
    (f : File) (d : FileInfo)
    (hopen : h.root.openF (normPath r.urlPath) = .ok f)
    (hstat : f.statRes = .ok d) (hdir : d.isDir = true)
    (hempty : r.urlPath = "") :
    h.serveHTTPV1 wd .empty r = localRedirect .empty r "/" ∧
    h.serveHTTPV2 wd .empty r = .error () := by
  constructor
  · have h1 := v1_dir_noslash h wd .empty r f d hopen hstat hdir
      (by rw [hempty]; rfl)
    rw [h1, hempty]
    rfl
  · exact v2_dir_outOfRange h wd .empty r f d hopen hstat hdir (by rw [hempty]; rfl)

/-- C5 witness: both variants evaluated at the empty path over a concrete
root directory. -/
theorem c5_witness :
    wRootDirHandler.serveHTTPV1 wEmptyWorld .empty
      { urlPath := "", rawQuery := "" } =
      localRedirect .empty { urlPath := "", rawQuery := "" } "/" ∧
    wRootDirHandler.serveHTTPV2 wEmptyWorld .empty
      { urlPath := "", rawQuery := "" } = .error () :=
  c5_amended wRootDirHandler wEmptyWorld { urlPath := "", rawQuery := "" }
    wDirFile wDirInfo (by rfl) rfl rfl rfl

end Statiq
